import Mathlib

/-!
Shallow embedding of the TechHelper AI browser client
(`src/unnamed/part_000`, the continuous-recognition variant; the
single-shot variant `src/frontend/app.js` shares the transport and
streaming code modelled here).

JavaScript strings are modelled as Lean `String`; `jsTrim` models
`String.prototype.trim` (dropping whitespace from both ends).  DOM and
browser side effects (network requests, WebSocket traffic, speech
synthesis and recognition control calls) are recorded in an `Action`
trace inside the state, in the order the code performs them.
-/

namespace TechHelper

/-- Model of JavaScript `trim` on the character list of a string:
drop leading whitespace, then drop trailing whitespace. -/
def jsTrimL (l : List Char) : List Char :=
  ((l.dropWhile Char.isWhitespace).reverse.dropWhile Char.isWhitespace).reverse

/-- Model of JavaScript `String.prototype.trim`. -/
def jsTrim (s : String) : String :=
  ⟨jsTrimL s.data⟩

theorem dropWhile_dropWhile_self (p : Char → Bool) (l : List Char) :
    (l.dropWhile p).dropWhile p = l.dropWhile p := by
  induction l with
  | nil => rfl
  | cons a t ih =>
    by_cases h : p a
    · simpa [List.dropWhile_cons, h] using ih
    · simp [List.dropWhile_cons, h]

theorem head?_dropWhile_not (p : Char → Bool) (l : List Char) :
    ∀ a, (l.dropWhile p).head? = some a → p a = false := by
  induction l with
  | nil => intro a h; simp at h
  | cons b t ih =>
    intro a h
    by_cases hb : p b
    · exact ih a (by simpa [List.dropWhile_cons, hb] using h)
    · have hba : b = a := by simpa [List.dropWhile_cons, hb] using h
      simp only [Bool.not_eq_true] at hb
      rw [← hba]; exact hb

theorem dropWhile_eq_self_of_head (p : Char → Bool) (l : List Char)
    (h : ∀ a, l.head? = some a → p a = false) : l.dropWhile p = l := by
  cases l with
  | nil => rfl
  | cons a t => simp [List.dropWhile_cons, h a rfl]

theorem left_trim_of_right_trim (w : Char → Bool) (u : List Char)
    (hhead : ∀ a, u.head? = some a → w a = false) :
    ((u.reverse.dropWhile w).reverse).dropWhile w = (u.reverse.dropWhile w).reverse := by
  apply dropWhile_eq_self_of_head
  intro a ha
  apply hhead
  have h1 : List.takeWhile w u.reverse ++ List.dropWhile w u.reverse = u.reverse :=
    List.takeWhile_append_dropWhile w u.reverse
  have h2 : u = (u.reverse.dropWhile w).reverse ++ (u.reverse.takeWhile w).reverse := by
    have h3 := congrArg List.reverse h1
    rw [List.reverse_append, List.reverse_reverse] at h3
    exact h3.symm
  have hne : (u.reverse.dropWhile w).reverse ≠ [] := by
    intro h0; rw [h0] at ha; simp at ha
  obtain ⟨x, xs, hx⟩ := List.exists_cons_of_ne_nil hne
  rw [hx] at ha
  rw [h2, hx]
  simpa using ha

theorem jsTrimL_idem (l : List Char) : jsTrimL (jsTrimL l) = jsTrimL l := by
  have h1 : (jsTrimL l).dropWhile Char.isWhitespace = jsTrimL l :=
    left_trim_of_right_trim Char.isWhitespace (l.dropWhile Char.isWhitespace)
      (fun a ha => head?_dropWhile_not Char.isWhitespace l a ha)
  have h2 : (jsTrimL l).reverse.dropWhile Char.isWhitespace = (jsTrimL l).reverse := by
    rw [jsTrimL, List.reverse_reverse, dropWhile_dropWhile_self]
  calc jsTrimL (jsTrimL l)
      = (((jsTrimL l).dropWhile Char.isWhitespace).reverse.dropWhile Char.isWhitespace).reverse := rfl
    _ = ((jsTrimL l).reverse.dropWhile Char.isWhitespace).reverse := by rw [h1]
    _ = (jsTrimL l).reverse.reverse := by rw [h2]
    _ = jsTrimL l := List.reverse_reverse _

theorem jsTrim_idem (s : String) : jsTrim (jsTrim s) = jsTrim s :=
  congrArg String.mk (jsTrimL_idem s.data)

theorem jsTrim_jsTrim_ne_empty (s : String) (h : jsTrim s ≠ "") :
    jsTrim (jsTrim s) ≠ "" := by
  rw [jsTrim_idem]; exact h

/-- Message kinds rendered by `showMessage` (the `message-user`,
`message-assistant`, `message-error` CSS classes). -/
inductive MsgType
  | user
  | assistant
  | error
deriving Repr, DecidableEq

/-- Body of a `POST /chat` request: `startSession` sends the fixed
greeting `{ message: 'Hello' }`; `sendMessage` sends
`{ message, session_id, speak_slowly }`. -/
inductive ChatBody
  | greeting
  | chat (message : String) (session_id : Option String) (speak_slowly : Bool)
deriving Repr, DecidableEq

/-- One observable side effect on the browser environment, recorded in
program order.  The DOM message log, speech output, recognition control
calls and all network traffic appear here. -/
inductive Action
  | httpChat (body : ChatBody)
  | httpHumanHelp (sessionId : Option String) (phone : String)
  | wsSend (message : String)
  | wsOpen (sessionId : Option String)
  | wsClose
  | speakCancel
  | speakUtter (text : String) (slow : Bool)
  | appendMessage (kind : MsgType) (text : String)
  | appendStreamBubble
  | alertBox (text : String)
  | recogStartCall
  | recogStopCall
  | recogAbortCall
deriving Repr, DecidableEq

/-- Parsed JSON body of a successful `POST /chat` response. -/
structure ChatResponse where
  session_id : String
  response : String
deriving Repr, DecidableEq

/-- Outcome of one awaited `fetch` of `POST /chat`: `ok` carries the
parsed JSON body; `fail` stands for a thrown fetch error, a non-OK
response, or a JSON parse failure (all reach the same `catch`). -/
inductive HttpResult
  | ok (r : ChatResponse)
  | fail
deriving Repr, DecidableEq

/-- Outcome of the awaited `POST /session/{id}/human-help` request. -/
inductive HelpResult
  | ok (message : String)
  | fail
deriving Repr, DecidableEq

/-- A parsed WebSocket frame as read by `socket.onmessage`: the JSON
object's fields `error`, `type`, `chunk`, `done`; absent fields are
`none` / `false`. -/
structure WsData where
  error : Option String
  type : Option String
  chunk : Option String
  done : Bool
deriving Repr, DecidableEq

/-- A frame `{chunk: c}`. -/
def chunkFrame (c : String) : WsData := ⟨none, none, some c, false⟩

/-- A frame `{done: true}`. -/
def doneFrame : WsData := ⟨none, none, none, true⟩

/-- A frame `{error: e}`. -/
def errorFrame (e : String) : WsData := ⟨some e, none, none, false⟩

/-- A frame `{type: 'stats', session_cost: ...}` (the cost value is not
used by any modelled state). -/
def statsFrame : WsData := ⟨none, some "stats", none, false⟩

/-- The page's mutable state: the module-level `let` bindings of
`src/unnamed/part_000`, the DOM bits the script reads back or that the
claims mention, the two browser capability flags (fixed per page load),
and the trace of emitted `Action`s. -/
structure AppState where
  sessionId : Option String
  socketExists : Bool
  socketOpen : Bool
  isRecording : Bool
  speakSlowly : Bool
  lastResponse : String
  restartAttempts : Nat
  recordingTimeout : Bool
  recognitionExists : Bool
  speechRecogSupported : Bool
  speechSynthSupported : Bool
  streamingActive : Bool
  streamingText : String
  streamBubbleText : String
  messageInput : String
  placeholder : String
  phoneInput : String
  typingHidden : Bool
  listeningHidden : Bool
  micRecordingClass : Bool
  micHidden : Bool
  helpModalHidden : Bool
  welcomeActive : Bool
  chatActive : Bool
  trace : List Action
deriving Repr, DecidableEq

/-- Record one side effect. -/
def emit (a : Action) (s : AppState) : AppState :=
  { s with trace := s.trace ++ [a] }

/-- Source `speak(text)` (lines 43-69): no-op when synthesis is unsupported;
otherwise cancel in-flight speech and utter `text` at the rate selected
by `speakSlowly`.  Voice selection only picks the utterance voice from
browser data and is not modelled. -/
def speak (text : String) (s : AppState) : AppState :=
  if s.speechSynthSupported then
    emit (.speakUtter text s.speakSlowly) (emit .speakCancel s)
  else s

/-- Source `stopSpeaking()` (lines 71-73). -/
def stopSpeaking (s : AppState) : AppState :=
  emit .speakCancel s

/-- Source `showMessage(type, text)` (lines 278-295): append a timestamped
bubble to the message log (the wall-clock timestamp is not modelled). -/
def showMessage (kind : MsgType) (text : String) (s : AppState) : AppState :=
  emit (.appendMessage kind text) s

/-- Source `startStreamingMessage()` (lines 297-314). -/
def startStreamingMessage (s : AppState) : AppState :=
  let s := emit .appendStreamBubble s
  { s with streamingActive := true, streamingText := "", streamBubbleText := "" }

/-- Source `updateStreamingMessage(chunk)` (lines 316-323): lazily create the
streaming bubble, append the chunk to the buffer and re-render. -/
def updateStreamingMessage (chunk : String) (s : AppState) : AppState :=
  let s := if s.streamingActive then s else startStreamingMessage s
  let s := { s with streamingText := s.streamingText ++ chunk }
  { s with streamBubbleText := s.streamingText }

/-- Source `finishStreamingMessage()` (lines 325-333). -/
def finishStreamingMessage (s : AppState) : AppState :=
  let s :=
    if s.streamingActive then
      let s := { s with lastResponse := s.streamingText }
      let s := speak s.streamingText s
      { s with streamingActive := false, streamingText := "" }
    else s
  { s with typingHidden := true }

/-- Source `sendMessage(text)` (lines 340-385).  The awaited HTTP outcome is
passed in as `http`; it is consulted only on the fallback path. -/
def sendMessage (text : String) (http : HttpResult) (s : AppState) : AppState :=
  if jsTrim text = "" then s
  else
    let s := showMessage .user text s
    let s := { s with messageInput := "" }
    let s := { s with typingHidden := false }
    if s.socketOpen then
      emit (.wsSend text) s
    else
      let s := emit (.httpChat (.chat text s.sessionId s.speakSlowly)) s
      match http with
      | .ok r =>
        let s := { s with sessionId := some r.session_id }
        let s := showMessage .assistant r.response s
        let s := speak r.response s
        let s := { s with lastResponse := r.response }
        { s with typingHidden := true }
      | .fail =>
        let s := showMessage .error "Sorry, I had trouble connecting. Please try again." s
        { s with typingHidden := true }

/-- Source `connectWebSocket()` (lines 228-272): close any previous socket and
open a new one on the session-scoped path.  The new socket is in the
CONNECTING state until its open event (`socketOnOpen`) fires. -/
def connectWebSocket (s : AppState) : AppState :=
  let s := if s.socketExists then emit .wsClose s else s
  let s := emit (.wsOpen s.sessionId) s
  { s with socketExists := true, socketOpen := false }

/-- Source `startSession()` (lines 388-416). -/
def startSession (http : HttpResult) (s : AppState) : AppState :=
  let s := emit (.httpChat .greeting) s
  match http with
  | .ok r =>
    let s := { s with sessionId := some r.session_id }
    let s := { s with welcomeActive := false, chatActive := true }
    let s := connectWebSocket s
    let s := showMessage .assistant r.response s
    let s := speak r.response s
    { s with lastResponse := r.response }
  | .fail =>
    emit (.alertBox "Could not connect to the service. Please try again later.") s

/-- Source `requestHumanHelp()` (lines 419-439). -/
def hideHumanHelpModal (s : AppState) : AppState :=
  { s with helpModalHidden := true, phoneInput := "" }

/-- Source `showHumanHelpModal()` (lines 441-444); focusing the input is not
modelled. -/
def showHumanHelpModal (s : AppState) : AppState :=
  { s with helpModalHidden := false }

/-- Source `requestHumanHelp()` (lines 419-439), with the awaited request
outcome passed in. -/
def requestHumanHelp (http : HelpResult) (s : AppState) : AppState :=
  let phone := jsTrim s.phoneInput
  let s := emit (.httpHumanHelp s.sessionId phone) s
  match http with
  | .ok m =>
    let s := hideHumanHelpModal s
    let s := showMessage .assistant m s
    speak m s
  | .fail =>
    showMessage .error "Could not request help. Please call 1-800-TECH-HELP directly." s

/-- Source `MAX_RESTART_ATTEMPTS` (line 78). -/
def MAX_RESTART_ATTEMPTS : Nat := 3

/-- Source `initSpeechRecognition()` (lines 80-187): feature-detect the API;
on success build the recogniser (its handlers are the `recognitionOn*`
functions below) and return `true`, on failure hide the mic button and
return `false`. -/
def initSpeechRecognition (s : AppState) : AppState × Bool :=
  if s.speechRecogSupported then
    ({ s with recognitionExists := true }, true)
  else
    ({ s with micHidden := true }, false)

/-- Source `stopRecording()` (lines 204-225). -/
def stopRecording (s : AppState) : AppState :=
  let s := { s with isRecording := false, restartAttempts := 0 }
  let s := { s with recordingTimeout := false }
  let s := if s.recognitionExists then emit .recogAbortCall (emit .recogStopCall s) else s
  { s with micRecordingClass := false, listeningHidden := true,
           placeholder := "Type your question here..." }

/-- Source `startRecording()` (lines 189-202).  `recognition.start()` may throw
(only logged), so the call is recorded and the actual start is the
separate `recognitionOnStart` event. -/
def startRecording (s : AppState) : AppState :=
  if s.recognitionExists then emit .recogStartCall s
  else
    let p := initSpeechRecognition s
    if p.2 then emit .recogStartCall p.1
    else showMessage .error "Voice input is not supported on your device." p.1

/-- Source `recognition.onstart` (lines 96-122): mark recording, reset the
restart counter, clear any previous safety timer and arm a fresh
30-second one. -/
def recognitionOnStart (s : AppState) : AppState :=
  let s := { s with isRecording := true, restartAttempts := 0,
                    micRecordingClass := true, listeningHidden := false,
                    placeholder := "Listening... Speak clearly" }
  { s with recordingTimeout := true }

/-- The 30-second safety-timeout callback armed in `recognition.onstart`
(lines 109-119).  A timer that is not pending (never armed, already
fired, or cancelled by `clearTimeout` in `stopRecording`) cannot fire,
so firing is then a no-op. -/
def recordingTimeoutFire (http : HttpResult) (s : AppState) : AppState :=
  if s.recordingTimeout then
    let s := { s with recordingTimeout := false }
    if s.isRecording then
      let s := stopRecording s
      let text := jsTrim s.messageInput
      if text = "" then s else sendMessage text http s
    else s
  else s

/-- One entry of `event.results` from `event.resultIndex` on: the first
alternative's transcript and the `isFinal` flag. -/
structure RecogResult where
  transcript : String
  isFinal : Bool
deriving Repr, DecidableEq

/-- Source `recognition.onresult` (lines 124-146). -/
def recognitionOnResult (results : List RecogResult) (s : AppState) : AppState :=
  let finalTranscript :=
    results.foldl (fun acc r => if r.isFinal then acc ++ r.transcript else acc) ""
  let interimTranscript :=
    results.foldl (fun acc r => if r.isFinal then acc else acc ++ r.transcript) ""
  let s := if interimTranscript ≠ "" then { s with messageInput := interimTranscript } else s
  if finalTranscript ≠ "" then
    { s with messageInput := finalTranscript,
             placeholder := "Still listening... tap mic when done" }
  else s

/-- Source `recognition.onerror` (lines 148-160). -/
def recognitionOnError (code : String) (s : AppState) : AppState :=
  if code = "not-allowed" then
    stopRecording (showMessage .error "Please allow microphone access to use voice input." s)
  else if code = "network" then
    stopRecording (showMessage .error "Network error. Please try typing instead." s)
  else s

/-- Source `recognition.onend` (lines 162-184). -/
def recognitionOnEnd (s : AppState) : AppState :=
  if s.isRecording ∧ s.restartAttempts < MAX_RESTART_ATTEMPTS then
    { s with restartAttempts := s.restartAttempts + 1 }
  else if s.restartAttempts ≥ MAX_RESTART_ATTEMPTS then
    stopRecording s
  else s

/-- The 100 ms restart callback scheduled by `recognition.onend`
(lines 170-179); `startThrew` says whether `recognition.start()`
threw. -/
def restartTimerFire (startThrew : Bool) (s : AppState) : AppState :=
  if s.isRecording ∧ s.recognitionExists then
    if startThrew then stopRecording (emit .recogStartCall s)
    else emit .recogStartCall s
  else s

/-- Source `socket.onmessage` (lines 239-262). -/
def socketOnMessage (d : WsData) (s : AppState) : AppState :=
  if d.error.getD "" ≠ "" then
    let s := showMessage .error (d.error.getD "") s
    { s with typingHidden := true }
  else if d.type = some "stats" then s
  else
    let s := if d.chunk.getD "" ≠ "" then updateStreamingMessage (d.chunk.getD "") s else s
    if d.done then finishStreamingMessage s else s

/-- Source `socket.onerror` (lines 264-267). -/
def socketOnError (s : AppState) : AppState :=
  showMessage .error "Connection error. Please try again." s

/-- The socket's open event firing (readyState becomes OPEN). -/
def socketOnOpen (s : AppState) : AppState :=
  { s with socketOpen := true }

/-- The socket's close event firing (readyState leaves OPEN); the
`onclose` handler itself only logs. -/
def socketOnClose (s : AppState) : AppState :=
  { s with socketOpen := false }

/-- The mic button click handler (lines 468-488). -/
def micBtnClick (http : HttpResult) (s : AppState) : AppState :=
  if s.isRecording then
    let message := jsTrim s.messageInput
    let s := stopRecording s
    if message ≠ "" then sendMessage message http s
    else
      let s := { s with placeholder := "No speech detected. Please try again." }
      speak "I did not hear anything. Please try speaking again." s
  else
    let s := { s with messageInput := "", placeholder := "Listening... Speak now" }
    startRecording s

/-- A quick-button click (lines 491-504). -/
def quickBtnClick (message : String) (http : HttpResult) (s : AppState) : AppState :=
  if message = "Can you say that again?" then
    if s.lastResponse ≠ "" then speak s.lastResponse s
    else speak "I haven\x27t said anything yet. How can I help you today?" s
  else sendMessage message http s

/-- The speak-slowly toggle (lines 507-511); the button's `active` class
mirrors the flag and is not tracked separately. -/
def speakSlowlyClick (s : AppState) : AppState :=
  let s := { s with speakSlowly := !s.speakSlowly }
  if s.speakSlowly then speak "I will speak more slowly now." s
  else speak "I will speak at normal speed." s

/-- The read-last-response button (lines 514-520). -/
def readLastClick (s : AppState) : AppState :=
  if s.lastResponse ≠ "" then speak s.lastResponse s
  else speak "I haven\x27t answered anything yet. How can I help you?" s

/-- Every handler the page can run, each with the data its callback
receives from the environment (typed text, parsed frames, awaited
request outcomes, recognition event payloads). -/
inductive Event
  | startBtn (http : HttpResult)
  | sendBtn (http : HttpResult)
  | enterKey (http : HttpResult)
  | micBtn (http : HttpResult)
  | quickBtn (message : String) (http : HttpResult)
  | speakSlowlyBtn
  | readLastBtn
  | helpBtn
  | helpCancel
  | helpConfirm (http : HelpResult)
  | typeInput (text : String)
  | typePhone (text : String)
  | inputFocus
  | wsMessage (d : WsData)
  | wsOpenEvt
  | wsErrorEvt
  | wsCloseEvt
  | recogStartEvt
  | recogResultEvt (results : List RecogResult)
  | recogErrorEvt (code : String)
  | recogEndEvt
  | restartTimer (startThrew : Bool)
  | safetyTimer (http : HttpResult)
deriving Repr, DecidableEq

/-- Dispatch one event to its handler. -/
def step (e : Event) (s : AppState) : AppState :=
  match e with
  | .startBtn http => startSession http s
  | .sendBtn http => sendMessage s.messageInput http s
  | .enterKey http => sendMessage s.messageInput http s
  | .micBtn http => micBtnClick http s
  | .quickBtn message http => quickBtnClick message http s
  | .speakSlowlyBtn => speakSlowlyClick s
  | .readLastBtn => readLastClick s
  | .helpBtn => showHumanHelpModal s
  | .helpCancel => hideHumanHelpModal s
  | .helpConfirm http => requestHumanHelp http s
  | .typeInput text => { s with messageInput := text }
  | .typePhone text => { s with phoneInput := text }
  | .inputFocus => stopSpeaking s
  | .wsMessage d => socketOnMessage d s
  | .wsOpenEvt => socketOnOpen s
  | .wsErrorEvt => socketOnError s
  | .wsCloseEvt => socketOnClose s
  | .recogStartEvt => recognitionOnStart s
  | .recogResultEvt results => recognitionOnResult results s
  | .recogErrorEvt code => recognitionOnError code s
  | .recogEndEvt => recognitionOnEnd s
  | .restartTimer startThrew => restartTimerFire startThrew s
  | .safetyTimer http => recordingTimeoutFire http s

/-- Page-load state after `init()` (lines 539-552) ran:
`initSpeechRecognition` has been called once; the capability flags are
fixed per browser. -/
def mkInit (recogSupported synthSupported : Bool) : AppState :=
  let s : AppState := {
    sessionId := none, socketExists := false, socketOpen := false,
    isRecording := false, speakSlowly := false, lastResponse := "",
    restartAttempts := 0, recordingTimeout := false,
    recognitionExists := false,
    speechRecogSupported := recogSupported,
    speechSynthSupported := synthSupported,
    streamingActive := false, streamingText := "", streamBubbleText := "",
    messageInput := "", placeholder := "Type your question here...",
    phoneInput := "",
    typingHidden := true, listeningHidden := true,
    micRecordingClass := false, micHidden := false,
    helpModalHidden := true,
    welcomeActive := true, chatActive := false,
    trace := [] }
  (initSpeechRecognition s).1

/-- States the page can be in: the load state for some browser
capabilities, closed under every handler. -/
inductive Reachable : AppState → Prop
  | init (recogSupported synthSupported : Bool) :
      Reachable (mkInit recogSupported synthSupported)
  | next {s : AppState} (e : Event) : Reachable s → Reachable (step e s)

/-- Texts handed to the synthesis engine, in order. -/
def spokenTexts (tr : List Action) : List String :=
  tr.filterMap fun a =>
    match a with
    | .speakUtter t _ => some t
    | _ => none

/-- Message texts dispatched to the assistant (socket send or HTTP chat
payload), in order. -/
def dispatchedMessages (tr : List Action) : List String :=
  tr.filterMap fun a =>
    match a with
    | .wsSend m => some m
    | .httpChat (.chat m _ _) => some m
    | _ => none

/-- Bodies of the `POST /chat` requests, in order. -/
def httpChats (tr : List Action) : List ChatBody :=
  tr.filterMap fun a =>
    match a with
    | .httpChat b => some b
    | _ => none

/-- Whether an action opens a WebSocket. -/
def Action.isWsOpen : Action → Bool
  | .wsOpen _ => true
  | _ => false

/-- Concatenation of chunk strings in arrival order. -/
def concatChunks : List String → String
  | [] => ""
  | c :: cs => c ++ concatChunks cs

/-- Number of elements the message log gains (user/assistant/error
bubbles and streaming bubbles alike). -/
def domAppends (tr : List Action) : List Action :=
  tr.filter fun a =>
    match a with
    | .appendMessage _ _ => true
    | .appendStreamBubble => true
    | _ => false

@[simp] theorem spokenTexts_append (a b : List Action) :
    spokenTexts (a ++ b) = spokenTexts a ++ spokenTexts b :=
  List.filterMap_append a b _

@[simp] theorem dispatchedMessages_append (a b : List Action) :
    dispatchedMessages (a ++ b) = dispatchedMessages a ++ dispatchedMessages b :=
  List.filterMap_append a b _

@[simp] theorem httpChats_append (a b : List Action) :
    httpChats (a ++ b) = httpChats a ++ httpChats b :=
  List.filterMap_append a b _

@[simp] theorem domAppends_append (a b : List Action) :
    domAppends (a ++ b) = domAppends a ++ domAppends b :=
  List.filter_append a b

@[simp] theorem emit_trace (a : Action) (s : AppState) :
    (emit a s).trace = s.trace ++ [a] := rfl

@[simp] theorem emit_restartAttempts (a : Action) (s : AppState) :
    (emit a s).restartAttempts = s.restartAttempts := rfl

@[simp] theorem emit_isRecording (a : Action) (s : AppState) :
    (emit a s).isRecording = s.isRecording := rfl

@[simp] theorem emit_sessionId (a : Action) (s : AppState) :
    (emit a s).sessionId = s.sessionId := rfl

@[simp] theorem emit_lastResponse (a : Action) (s : AppState) :
    (emit a s).lastResponse = s.lastResponse := rfl

@[simp] theorem emit_messageInput (a : Action) (s : AppState) :
    (emit a s).messageInput = s.messageInput := rfl

@[simp] theorem emit_recordingTimeout (a : Action) (s : AppState) :
    (emit a s).recordingTimeout = s.recordingTimeout := rfl

@[simp] theorem speak_restartAttempts (t : String) (s : AppState) :
    (speak t s).restartAttempts = s.restartAttempts := by
  unfold speak; split <;> rfl

@[simp] theorem speak_isRecording (t : String) (s : AppState) :
    (speak t s).isRecording = s.isRecording := by
  unfold speak; split <;> rfl

@[simp] theorem speak_sessionId (t : String) (s : AppState) :
    (speak t s).sessionId = s.sessionId := by
  unfold speak; split <;> rfl

@[simp] theorem speak_lastResponse (t : String) (s : AppState) :
    (speak t s).lastResponse = s.lastResponse := by
  unfold speak; split <;> rfl

@[simp] theorem speak_recordingTimeout (t : String) (s : AppState) :
    (speak t s).recordingTimeout = s.recordingTimeout := by
  unfold speak; split <;> rfl

theorem speak_trace_supported (t : String) (s : AppState)
    (h : s.speechSynthSupported = true) :
    (speak t s).trace = s.trace ++ [.speakCancel, .speakUtter t s.speakSlowly] := by
  unfold speak
  rw [if_pos h]
  simp

@[simp] theorem speak_dispatched (t : String) (s : AppState) :
    dispatchedMessages (speak t s).trace = dispatchedMessages s.trace := by
  unfold speak; split <;> simp [dispatchedMessages]

@[simp] theorem showMessage_restartAttempts (k : MsgType) (t : String) (s : AppState) :
    (showMessage k t s).restartAttempts = s.restartAttempts := rfl

@[simp] theorem showMessage_isRecording (k : MsgType) (t : String) (s : AppState) :
    (showMessage k t s).isRecording = s.isRecording := rfl

@[simp] theorem showMessage_trace (k : MsgType) (t : String) (s : AppState) :
    (showMessage k t s).trace = s.trace ++ [.appendMessage k t] := rfl

@[simp] theorem stopRecording_isRecording (s : AppState) :
    (stopRecording s).isRecording = false := by
  unfold stopRecording; dsimp only; split <;> rfl

@[simp] theorem stopRecording_restartAttempts (s : AppState) :
    (stopRecording s).restartAttempts = 0 := by
  unfold stopRecording; dsimp only; split <;> rfl

@[simp] theorem stopRecording_recordingTimeout (s : AppState) :
    (stopRecording s).recordingTimeout = false := by
  unfold stopRecording; dsimp only; split <;> rfl

@[simp] theorem stopRecording_messageInput (s : AppState) :
    (stopRecording s).messageInput = s.messageInput := by
  unfold stopRecording; dsimp only; split <;> rfl

@[simp] theorem stopRecording_sessionId (s : AppState) :
    (stopRecording s).sessionId = s.sessionId := by
  unfold stopRecording; dsimp only; split <;> rfl

@[simp] theorem stopRecording_lastResponse (s : AppState) :
    (stopRecording s).lastResponse = s.lastResponse := by
  unfold stopRecording; dsimp only; split <;> rfl

@[simp] theorem stopRecording_socketOpen (s : AppState) :
    (stopRecording s).socketOpen = s.socketOpen := by
  unfold stopRecording; dsimp only; split <;> rfl

@[simp] theorem stopRecording_speakSlowly (s : AppState) :
    (stopRecording s).speakSlowly = s.speakSlowly := by
  unfold stopRecording; dsimp only; split <;> rfl

@[simp] theorem stopRecording_speechSynthSupported (s : AppState) :
    (stopRecording s).speechSynthSupported = s.speechSynthSupported := by
  unfold stopRecording; dsimp only; split <;> rfl

@[simp] theorem stopRecording_recognitionExists (s : AppState) :
    (stopRecording s).recognitionExists = s.recognitionExists := by
  unfold stopRecording; dsimp only; split <;> rfl

@[simp] theorem stopRecording_dispatched (s : AppState) :
    dispatchedMessages (stopRecording s).trace = dispatchedMessages s.trace := by
  unfold stopRecording; dsimp only; split <;> simp [dispatchedMessages]

@[simp] theorem stopRecording_spoken (s : AppState) :
    spokenTexts (stopRecording s).trace = spokenTexts s.trace := by
  unfold stopRecording; dsimp only; split <;> simp [spokenTexts]

@[simp] theorem sendMessage_restartAttempts (t : String) (http : HttpResult) (s : AppState) :
    (sendMessage t http s).restartAttempts = s.restartAttempts := by
  unfold sendMessage; dsimp only
  split
  · rfl
  · split
    · rfl
    · cases http <;> simp [showMessage, emit]

@[simp] theorem sendMessage_isRecording (t : String) (http : HttpResult) (s : AppState) :
    (sendMessage t http s).isRecording = s.isRecording := by
  unfold sendMessage; dsimp only
  split
  · rfl
  · split
    · rfl
    · cases http <;> simp [showMessage, emit]

@[simp] theorem sendMessage_recordingTimeout (t : String) (http : HttpResult) (s : AppState) :
    (sendMessage t http s).recordingTimeout = s.recordingTimeout := by
  unfold sendMessage; dsimp only
  split
  · rfl
  · split
    · rfl
    · cases http <;> simp [showMessage, emit]

/-- On a non-blank text, `sendMessage` dispatches exactly that text,
once (over the socket when it is open, in the HTTP body otherwise). -/
theorem sendMessage_dispatched (t : String) (http : HttpResult) (s : AppState)
    (h : jsTrim t ≠ "") :
    dispatchedMessages (sendMessage t http s).trace
      = dispatchedMessages s.trace ++ [t] := by
  unfold sendMessage; dsimp only
  rw [if_neg h]
  split
  · simp [showMessage, emit]
    simp [dispatchedMessages]
  · cases http <;> simp [showMessage, emit] <;> simp [dispatchedMessages]

@[simp] theorem updateStreamingMessage_restartAttempts (c : String) (s : AppState) :
    (updateStreamingMessage c s).restartAttempts = s.restartAttempts := by
  unfold updateStreamingMessage startStreamingMessage; dsimp only
  split <;> rfl

@[simp] theorem updateStreamingMessage_isRecording (c : String) (s : AppState) :
    (updateStreamingMessage c s).isRecording = s.isRecording := by
  unfold updateStreamingMessage startStreamingMessage; dsimp only
  split <;> rfl

@[simp] theorem updateStreamingMessage_lastResponse (c : String) (s : AppState) :
    (updateStreamingMessage c s).lastResponse = s.lastResponse := by
  unfold updateStreamingMessage startStreamingMessage; dsimp only
  split <;> rfl

@[simp] theorem updateStreamingMessage_sessionId (c : String) (s : AppState) :
    (updateStreamingMessage c s).sessionId = s.sessionId := by
  unfold updateStreamingMessage startStreamingMessage; dsimp only
  split <;> rfl

@[simp] theorem finishStreamingMessage_restartAttempts (s : AppState) :
    (finishStreamingMessage s).restartAttempts = s.restartAttempts := by
  unfold finishStreamingMessage; dsimp only
  split <;> simp

@[simp] theorem finishStreamingMessage_isRecording (s : AppState) :
    (finishStreamingMessage s).isRecording = s.isRecording := by
  unfold finishStreamingMessage; dsimp only
  split <;> simp

@[simp] theorem finishStreamingMessage_sessionId (s : AppState) :
    (finishStreamingMessage s).sessionId = s.sessionId := by
  unfold finishStreamingMessage; dsimp only
  split <;> simp

@[simp] theorem socketOnMessage_restartAttempts (d : WsData) (s : AppState) :
    (socketOnMessage d s).restartAttempts = s.restartAttempts := by
  unfold socketOnMessage; dsimp only
  split
  · rfl
  · split
    · rfl
    · split <;> split <;> simp

@[simp] theorem socketOnMessage_isRecording (d : WsData) (s : AppState) :
    (socketOnMessage d s).isRecording = s.isRecording := by
  unfold socketOnMessage; dsimp only
  split
  · rfl
  · split
    · rfl
    · split <;> split <;> simp

@[simp] theorem socketOnMessage_sessionId (d : WsData) (s : AppState) :
    (socketOnMessage d s).sessionId = s.sessionId := by
  unfold socketOnMessage; dsimp only
  split
  · rfl
  · split
    · rfl
    · split <;> split <;> simp

@[simp] theorem connectWebSocket_restartAttempts (s : AppState) :
    (connectWebSocket s).restartAttempts = s.restartAttempts := by
  unfold connectWebSocket; dsimp only
  split <;> rfl

@[simp] theorem connectWebSocket_sessionId (s : AppState) :
    (connectWebSocket s).sessionId = s.sessionId := by
  unfold connectWebSocket; dsimp only
  split <;> rfl

@[simp] theorem connectWebSocket_trace (s : AppState) :
    (connectWebSocket s).trace =
      s.trace ++ (if s.socketExists then [Action.wsClose] else [])
        ++ [Action.wsOpen s.sessionId] := by
  unfold connectWebSocket; dsimp only
  split <;> simp

@[simp] theorem startSession_restartAttempts (http : HttpResult) (s : AppState) :
    (startSession http s).restartAttempts = s.restartAttempts := by
  unfold startSession; dsimp only
  cases http <;> simp

@[simp] theorem startSession_isRecording (http : HttpResult) (s : AppState) :
    (startSession http s).isRecording = s.isRecording := by
  unfold startSession; dsimp only
  cases http <;> simp [connectWebSocket]
  split <;> rfl

@[simp] theorem startRecording_restartAttempts (s : AppState) :
    (startRecording s).restartAttempts = s.restartAttempts := by
  unfold startRecording initSpeechRecognition; dsimp only
  split
  · rfl
  · split <;> split <;> rfl

@[simp] theorem recognitionOnStart_restartAttempts (s : AppState) :
    (recognitionOnStart s).restartAttempts = 0 := rfl

@[simp] theorem recognitionOnResult_restartAttempts (rs : List RecogResult) (s : AppState) :
    (recognitionOnResult rs s).restartAttempts = s.restartAttempts := by
  unfold recognitionOnResult; dsimp only
  split <;> split <;> rfl

theorem recognitionOnError_restartAttempts (code : String) (s : AppState) :
    (recognitionOnError code s).restartAttempts = 0 ∨
    (recognitionOnError code s).restartAttempts = s.restartAttempts := by
  unfold recognitionOnError
  split
  · left; simp
  · split
    · left; simp
    · right; rfl

theorem recordingTimeoutFire_restartAttempts (http : HttpResult) (s : AppState) :
    (recordingTimeoutFire http s).restartAttempts = 0 ∨
    (recordingTimeoutFire http s).restartAttempts = s.restartAttempts := by
  unfold recordingTimeoutFire; dsimp only
  split
  · split
    · split
      · left; simp
      · left; simp
    · right; rfl
  · right; rfl

theorem restartTimerFire_restartAttempts (b : Bool) (s : AppState) :
    (restartTimerFire b s).restartAttempts = 0 ∨
    (restartTimerFire b s).restartAttempts = s.restartAttempts := by
  unfold restartTimerFire
  split
  · split
    · left; simp
    · right; rfl
  · right; rfl

theorem micBtnClick_restartAttempts (http : HttpResult) (s : AppState) :
    (micBtnClick http s).restartAttempts = 0 ∨
    (micBtnClick http s).restartAttempts = s.restartAttempts := by
  unfold micBtnClick; dsimp only
  split
  · split
    · left; simp
    · left; simp
  · right; simp

@[simp] theorem quickBtnClick_restartAttempts (m : String) (http : HttpResult) (s : AppState) :
    (quickBtnClick m http s).restartAttempts = s.restartAttempts := by
  unfold quickBtnClick
  split
  · split <;> simp
  · simp

@[simp] theorem speakSlowlyClick_restartAttempts (s : AppState) :
    (speakSlowlyClick s).restartAttempts = s.restartAttempts := by
  unfold speakSlowlyClick; dsimp only
  split <;> simp

@[simp] theorem readLastClick_restartAttempts (s : AppState) :
    (readLastClick s).restartAttempts = s.restartAttempts := by
  unfold readLastClick
  split <;> simp

@[simp] theorem requestHumanHelp_restartAttempts (h : HelpResult) (s : AppState) :
    (requestHumanHelp h s).restartAttempts = s.restartAttempts := by
  unfold requestHumanHelp hideHumanHelpModal; dsimp only
  cases h <;> simp

theorem recognitionOnEnd_restartAttempts_le (s : AppState)
    (h : s.restartAttempts ≤ MAX_RESTART_ATTEMPTS) :
    (recognitionOnEnd s).restartAttempts ≤ MAX_RESTART_ATTEMPTS := by
  unfold recognitionOnEnd
  split
  · next hc =>
    simp only [MAX_RESTART_ATTEMPTS] at hc ⊢
    omega
  · split
    · simp [MAX_RESTART_ATTEMPTS]
    · exact h

@[simp] theorem mkInit_restartAttempts (a b : Bool) :
    (mkInit a b).restartAttempts = 0 := by
  unfold mkInit initSpeechRecognition; dsimp only
  split <;> rfl

theorem step_restartAttempts_le (e : Event) (s : AppState)
    (h : s.restartAttempts ≤ MAX_RESTART_ATTEMPTS) :
    (step e s).restartAttempts ≤ MAX_RESTART_ATTEMPTS := by
  cases e with
  | startBtn http => simpa [step] using h
  | sendBtn http => simpa [step] using h
  | enterKey http => simpa [step] using h
  | micBtn http =>
    show (micBtnClick http s).restartAttempts ≤ MAX_RESTART_ATTEMPTS
    rcases micBtnClick_restartAttempts http s with h0 | h0
    · rw [h0]; exact Nat.zero_le _
    · rw [h0]; exact h
  | quickBtn m http => simpa [step] using h
  | speakSlowlyBtn => simpa [step] using h
  | readLastBtn => simpa [step] using h
  | helpBtn => simpa [step, showHumanHelpModal] using h
  | helpCancel => simpa [step, hideHumanHelpModal] using h
  | helpConfirm hh => simpa [step] using h
  | typeInput t => simpa [step] using h
  | typePhone t => simpa [step] using h
  | inputFocus => simpa [step, stopSpeaking] using h
  | wsMessage d => simpa [step] using h
  | wsOpenEvt => simpa [step, socketOnOpen] using h
  | wsErrorEvt => simpa [step, socketOnError] using h
  | wsCloseEvt => simpa [step, socketOnClose] using h
  | recogStartEvt =>
    show (recognitionOnStart s).restartAttempts ≤ MAX_RESTART_ATTEMPTS
    rw [recognitionOnStart_restartAttempts]
    exact Nat.zero_le _
  | recogResultEvt rs => simpa [step] using h
  | recogErrorEvt code =>
    show (recognitionOnError code s).restartAttempts ≤ MAX_RESTART_ATTEMPTS
    rcases recognitionOnError_restartAttempts code s with h0 | h0
    · rw [h0]; exact Nat.zero_le _
    · rw [h0]; exact h
  | recogEndEvt =>
    show (recognitionOnEnd s).restartAttempts ≤ MAX_RESTART_ATTEMPTS
    exact recognitionOnEnd_restartAttempts_le s h
  | restartTimer b =>
    show (restartTimerFire b s).restartAttempts ≤ MAX_RESTART_ATTEMPTS
    rcases restartTimerFire_restartAttempts b s with h0 | h0
    · rw [h0]; exact Nat.zero_le _
    · rw [h0]; exact h
  | safetyTimer http =>
    show (recordingTimeoutFire http s).restartAttempts ≤ MAX_RESTART_ATTEMPTS
    rcases recordingTimeoutFire_restartAttempts http s with h0 | h0
    · rw [h0]; exact Nat.zero_le _
    · rw [h0]; exact h

/-- C1: for every blank or whitespace-only input string, `sendMessage`
is a no-op: the whole state is unchanged, so in particular nothing is
dispatched over the socket or by HTTP and no element is appended to the
DOM message log. -/
theorem c1_blank_send_noop (text : String) (http : HttpResult) (s : AppState)
    (h : jsTrim text = "") :
    sendMessage text http s = s ∧
    dispatchedMessages (sendMessage text http s).trace = dispatchedMessages s.trace ∧
    domAppends (sendMessage text http s).trace = domAppends s.trace := by
  have he : sendMessage text http s = s := by
    unfold sendMessage
    rw [if_pos h]
  exact ⟨he, by rw [he], by rw [he]⟩

theorem c1_blank_send_noop_witness :
    jsTrim "   " = "" ∧
    sendMessage "   " HttpResult.fail (mkInit true true) = mkInit true true :=
  ⟨by decide, (c1_blank_send_noop "   " HttpResult.fail (mkInit true true) (by decide)).1⟩

/-- C3: in every reachable state the restart-attempt counter is at most
`MAX_RESTART_ATTEMPTS = 3`, and an end event that fires with the counter
already at 3 forces the recording state to idle (via `stopRecording`)
instead of restarting. -/
theorem c3_restart_counter_bounded :
    (∀ s, Reachable s → s.restartAttempts ≤ MAX_RESTART_ATTEMPTS) ∧
    (∀ s, s.restartAttempts = MAX_RESTART_ATTEMPTS →
      (recognitionOnEnd s).isRecording = false) := by
  constructor
  · intro s h
    induction h with
    | init a b => simp
    | next e hr ih => exact step_restartAttempts_le e _ ih
  · intro s h
    have h1 : ¬(s.isRecording = true ∧ s.restartAttempts < MAX_RESTART_ATTEMPTS) := by
      rw [h]; simp
    rw [recognitionOnEnd, if_neg h1, if_pos (by rw [h])]
    simp

theorem c3_restart_counter_bounded_witness :
    (mkInit true true).restartAttempts ≤ MAX_RESTART_ATTEMPTS ∧
    (recognitionOnEnd { mkInit true true with restartAttempts := 3 }).isRecording = false :=
  ⟨c3_restart_counter_bounded.1 (mkInit true true) (Reachable.init true true),
   c3_restart_counter_bounded.2 { mkInit true true with restartAttempts := 3 } (by rfl)⟩

/-- C6: exactly the two error codes `not-allowed` and `network` stop the
current recording; any other error code leaves the entire state (in
particular the recording flag) unchanged, so the bounded restart policy
in `recognitionOnEnd` applies at the next end event. -/
theorem c6_two_fatal_error_codes (code : String) (s : AppState) :
    (recognitionOnError "not-allowed" s).isRecording = false ∧
    (recognitionOnError "network" s).isRecording = false ∧
    (code ≠ "not-allowed" → code ≠ "network" → recognitionOnError code s = s) := by
  refine ⟨?_, ?_, ?_⟩
  · rw [recognitionOnError, if_pos rfl]; simp
  · rw [recognitionOnError, if_neg (by decide), if_pos rfl]; simp
  · intro h1 h2
    rw [recognitionOnError, if_neg h1, if_neg h2]

theorem c6_two_fatal_error_codes_witness :
    recognitionOnError "no-speech" (mkInit true true) = mkInit true true :=
  (c6_two_fatal_error_codes "no-speech" (mkInit true true)).2.2 (by decide) (by decide)

/-- C9: `stopRecording` is unconditional and idempotent: after any call
the recording flag is false, the restart counter is 0 and the safety
timer is cleared, and a second consecutive call leaves all of that state
unchanged. -/
theorem c9_stopRecording_idempotent (s : AppState) :
    (stopRecording s).isRecording = false ∧
    (stopRecording s).restartAttempts = 0 ∧
    (stopRecording s).recordingTimeout = false ∧
    (stopRecording (stopRecording s)).isRecording = (stopRecording s).isRecording ∧
    (stopRecording (stopRecording s)).restartAttempts = (stopRecording s).restartAttempts ∧
    (stopRecording (stopRecording s)).recordingTimeout = (stopRecording s).recordingTimeout := by
  simp

/-- C5: if the 30-second safety timer fires while recording is still
active, recording is stopped; if the buffered input is non-empty after
trimming, exactly that text is dispatched exactly once, and if it is
empty nothing is dispatched.  `stopRecording` clears the timer, and a
cleared (non-pending) timer firing is a no-op. -/
theorem c5_safety_timer (http : HttpResult) (s : AppState)
    (h1 : s.recordingTimeout = true) (h2 : s.isRecording = true) :
    (recordingTimeoutFire http s).isRecording = false ∧
    (jsTrim s.messageInput = "" →
      dispatchedMessages (recordingTimeoutFire http s).trace = dispatchedMessages s.trace) ∧
    (jsTrim s.messageInput ≠ "" →
      dispatchedMessages (recordingTimeoutFire http s).trace
        = dispatchedMessages s.trace ++ [jsTrim s.messageInput]) ∧
    (∀ u, (stopRecording u).recordingTimeout = false) ∧
    (∀ u, u.recordingTimeout = false → recordingTimeoutFire http u = u) := by
  have key : recordingTimeoutFire http s =
      if jsTrim s.messageInput = ""
      then stopRecording { s with recordingTimeout := false }
      else sendMessage (jsTrim s.messageInput) http
             (stopRecording { s with recordingTimeout := false }) := by
    rw [recordingTimeoutFire]
    dsimp only
    rw [if_pos h1, if_pos h2]
    simp only [stopRecording_messageInput]
  refine ⟨?_, ?_, ?_, fun u => stopRecording_recordingTimeout u, ?_⟩
  · rw [key]
    by_cases hc : jsTrim s.messageInput = ""
    · rw [if_pos hc]; simp
    · rw [if_neg hc]; simp
  · intro hc; rw [key, if_pos hc]; simp
  · intro hc; rw [key, if_neg hc]
    rw [sendMessage_dispatched _ _ _ (jsTrim_jsTrim_ne_empty _ hc)]
    simp
  · intro u hu
    rw [recordingTimeoutFire]
    dsimp only
    rw [if_neg (by simp [hu])]

theorem c5_safety_timer_witness :
    (recordingTimeoutFire HttpResult.fail { mkInit true true with
        isRecording := true, recordingTimeout := true, messageInput := " hi " }).isRecording
      = false ∧
    dispatchedMessages (recordingTimeoutFire HttpResult.fail { mkInit true true with
        isRecording := true, recordingTimeout := true, messageInput := " hi " }).trace
      = ["hi"] := by
  have h := c5_safety_timer HttpResult.fail { mkInit true true with
      isRecording := true, recordingTimeout := true, messageInput := " hi " }
    (by rfl) (by rfl)
  refine ⟨h.1, ?_⟩
  rw [h.2.2.1 (by decide)]
  decide

/-- C8: stopping a voice recording via the mic button with zero captured
text (empty or whitespace-only input) speaks an apology and dispatches
nothing; stopping with non-empty captured text dispatches exactly that
trimmed text. -/
theorem c8_voice_stop (http : HttpResult) (s : AppState)
    (h1 : s.isRecording = true) (h2 : s.speechSynthSupported = true) :
    (jsTrim s.messageInput = "" →
      spokenTexts (micBtnClick http s).trace
        = spokenTexts s.trace ++ ["I did not hear anything. Please try speaking again."] ∧
      dispatchedMessages (micBtnClick http s).trace = dispatchedMessages s.trace ∧
      (micBtnClick http s).isRecording = false) ∧
    (jsTrim s.messageInput ≠ "" →
      dispatchedMessages (micBtnClick http s).trace
        = dispatchedMessages s.trace ++ [jsTrim s.messageInput] ∧
      (micBtnClick http s).isRecording = false) := by
  have key : micBtnClick http s =
      if jsTrim s.messageInput ≠ ""
      then sendMessage (jsTrim s.messageInput) http (stopRecording s)
      else speak "I did not hear anything. Please try speaking again."
             { stopRecording s with placeholder := "No speech detected. Please try again." } := by
    rw [micBtnClick]
    dsimp only
    rw [if_pos h1]
  constructor
  · intro hc
    have hne : ¬(jsTrim s.messageInput ≠ "") := by simp [hc]
    rw [key, if_neg hne]
    refine ⟨?_, ?_, ?_⟩
    · rw [speak_trace_supported _ _ (by simp [h2])]
      dsimp only
      rw [spokenTexts_append, stopRecording_spoken]
      simp [spokenTexts]
    · simp
    · simp
  · intro hc
    rw [key, if_pos hc]
    refine ⟨?_, ?_⟩
    · rw [sendMessage_dispatched _ _ _ (jsTrim_jsTrim_ne_empty _ hc)]
      simp
    · simp

theorem c8_voice_stop_witness :
    spokenTexts (micBtnClick HttpResult.fail { mkInit true true with
        isRecording := true, messageInput := "   " }).trace
      = ["I did not hear anything. Please try speaking again."] ∧
    dispatchedMessages (micBtnClick HttpResult.fail { mkInit true true with
        isRecording := true, messageInput := "   " }).trace = [] ∧
    dispatchedMessages (micBtnClick HttpResult.fail { mkInit true true with
        isRecording := true, messageInput := " hey " }).trace = ["hey"] := by
  have ha := (c8_voice_stop HttpResult.fail { mkInit true true with
      isRecording := true, messageInput := "   " } (by rfl) (by rfl)).1 (by decide)
  have hb := (c8_voice_stop HttpResult.fail { mkInit true true with
      isRecording := true, messageInput := " hey " } (by rfl) (by rfl)).2 (by decide)
  refine ⟨?_, ?_, ?_⟩
  · rw [ha.1]; decide
  · rw [ha.2.1]; decide
  · rw [hb.1]; decide

/-- Source `speak` when synthesis is available appends the cancel and utter
actions. -/
theorem speak_eq_supported (t : String) (s : AppState)
    (h : s.speechSynthSupported = true) :
    speak t s =
      { s with trace := s.trace ++ [Action.speakCancel, Action.speakUtter t s.speakSlowly] } := by
  unfold speak
  rw [if_pos h]
  unfold emit
  simp

/-- Source `speak` when synthesis is unavailable is a no-op. -/
theorem speak_eq_unsupported (t : String) (s : AppState)
    (h : s.speechSynthSupported = false) :
    speak t s = s := by
  unfold speak
  rw [if_neg (by simp [h])]

/-- An empty chunk string is falsy in `if (data.chunk)`, so the frame is
ignored entirely. -/
theorem chunk_frame_empty (s : AppState) :
    socketOnMessage (chunkFrame "") s = s := by
  rw [socketOnMessage]
  simp [chunkFrame]

/-- A non-empty chunk frame while a stream is in progress appends the
chunk to the buffer and re-renders the bubble. -/
theorem chunk_frame_nonempty_active (c : String) (s : AppState)
    (hc : c ≠ "") (h : s.streamingActive = true) :
    socketOnMessage (chunkFrame c) s =
      { s with streamingText := s.streamingText ++ c,
               streamBubbleText := s.streamingText ++ c } := by
  simp [socketOnMessage, chunkFrame, updateStreamingMessage, hc, h]

/-- A non-empty chunk frame with no stream in progress creates the
bubble and starts the buffer at exactly that chunk. -/
theorem chunk_frame_nonempty_inactive (c : String) (s : AppState)
    (hc : c ≠ "") (h : s.streamingActive = false) :
    socketOnMessage (chunkFrame c) s =
      { s with streamingActive := true, streamingText := c, streamBubbleText := c,
               trace := s.trace ++ [Action.appendStreamBubble] } := by
  simp [socketOnMessage, chunkFrame, updateStreamingMessage, startStreamingMessage, emit,
        hc, h, String.empty_append]

/-- Folding the chunk-frame handler over a list of chunks. -/
def processChunks (chunks : List String) (s : AppState) : AppState :=
  chunks.foldl (fun t c => socketOnMessage (chunkFrame c) t) s

/-- A whole streamed reply: the chunk frames in arrival order, then the
`{done: true}` frame. -/
def processStream (chunks : List String) (s : AppState) : AppState :=
  socketOnMessage doneFrame (processChunks chunks s)

theorem processChunks_active (chunks : List String) :
    ∀ s : AppState, s.streamingActive = true → s.streamBubbleText = s.streamingText →
    processChunks chunks s =
      { s with streamingText := s.streamingText ++ concatChunks chunks,
               streamBubbleText := s.streamingText ++ concatChunks chunks } := by
  induction chunks with
  | nil =>
    intro s h hb
    show s = _
    rw [concatChunks, String.append_empty]
    nth_rewrite 2 [← hb]
    rfl
  | cons c cs ih =>
    intro s h hb
    have hstep : processChunks (c :: cs) s
        = processChunks cs (socketOnMessage (chunkFrame c) s) := by
      simp [processChunks]
    by_cases hc : c = ""
    · subst hc
      rw [hstep, chunk_frame_empty, ih s h hb]
      simp [concatChunks, String.empty_append]
    · rw [hstep, chunk_frame_nonempty_active c s hc h]
      rw [ih _ (by simp [h]) (by rfl)]
      simp [concatChunks, String.append_assoc]

theorem processChunks_inactive (chunks : List String) :
    ∀ s : AppState, s.streamingActive = false →
    processChunks chunks s =
      if chunks.all (fun c => c == "")
      then s
      else { s with streamingActive := true,
                    streamingText := concatChunks chunks,
                    streamBubbleText := concatChunks chunks,
                    trace := s.trace ++ [Action.appendStreamBubble] } := by
  induction chunks with
  | nil =>
    intro s h
    simp [processChunks]
  | cons c cs ih =>
    intro s h
    have hstep : processChunks (c :: cs) s
        = processChunks cs (socketOnMessage (chunkFrame c) s) := by
      simp [processChunks]
    by_cases hc : c = ""
    · subst hc
      rw [hstep, chunk_frame_empty, ih s h]
      simp [concatChunks, String.empty_append]
    · rw [hstep, chunk_frame_nonempty_inactive c s hc h]
      rw [processChunks_active cs _ (by rfl) (by rfl)]
      rw [if_neg (by simp [hc])]
      simp [concatChunks, String.append_assoc]

/-- The `{done: true}` frame while a stream is in progress: cache the
buffer as the last response, speak it, reset the buffer, hide the
typing indicator. -/
theorem done_frame_active (s : AppState) (h : s.streamingActive = true) :
    socketOnMessage doneFrame s =
      { s with lastResponse := s.streamingText, streamingActive := false,
               streamingText := "", typingHidden := true,
               trace := s.trace ++
                 (if s.speechSynthSupported
                  then [Action.speakCancel, Action.speakUtter s.streamingText s.speakSlowly]
                  else []) } := by
  by_cases hsy : s.speechSynthSupported = true
  · simp [socketOnMessage, doneFrame, finishStreamingMessage, h, hsy, speak_eq_supported]
  · have hf : s.speechSynthSupported = false := by simpa using hsy
    simp [socketOnMessage, doneFrame, finishStreamingMessage, h, hf, speak_eq_unsupported]

/-- C2 counterexample: a single `{chunk}` frame whose chunk string is
empty is falsy in JavaScript, so `updateStreamingMessage` never runs and
the following `{done: true}` frame finds no stream in progress: the
last-response cache keeps its previous value instead of being set to the
(empty) concatenation, and nothing is spoken. -/
theorem c2_streaming_counterexample :
    (processStream [""] { mkInit true true with lastResponse := "prev" }).lastResponse
      = "prev" ∧
    concatChunks [""] = "" ∧
    spokenTexts (processStream [""] { mkInit true true with lastResponse := "prev" }).trace
      = [] := by
  refine ⟨by decide, by decide, by decide⟩

/-- C2 (amended): for every sequence of `{chunk}` frames, at least one
of which carries a non-empty string, followed by `{done: true}`, the
final rendered bubble text and the spoken text equal the concatenation
of all chunk strings in arrival order, the last-response cache is set to
that concatenation, and the streaming buffer is reset to empty. -/
theorem c2_streaming_concat (chunks : List String) (s : AppState)
    (h0 : s.streamingActive = false) (h1 : s.speechSynthSupported = true)
    (h2 : ∃ c ∈ chunks, c ≠ "") :
    (processStream chunks s).streamBubbleText = concatChunks chunks ∧
    spokenTexts (processStream chunks s).trace
      = spokenTexts s.trace ++ [concatChunks chunks] ∧
    (processStream chunks s).lastResponse = concatChunks chunks ∧
    (processStream chunks s).streamingText = "" := by
  have hall : ¬ ((chunks.all fun c => c == "") = true) := by
    obtain ⟨c, hcmem, hcne⟩ := h2
    simp only [List.all_eq_true]
    intro hforall
    exact hcne (by simpa using hforall c hcmem)
  have hp := processChunks_inactive chunks s h0
  rw [if_neg hall] at hp
  unfold processStream
  rw [hp]
  rw [done_frame_active _ (by rfl)]
  refine ⟨by simp, ?_, by simp, by simp⟩
  simp only [h1]
  rw [if_pos trivial]
  rw [spokenTexts_append, spokenTexts_append]
  simp [spokenTexts]

theorem c2_streaming_concat_witness :
    spokenTexts (processStream ["hel", "wor"] (mkInit true true)).trace = ["helwor"] ∧
    (processStream ["hel", "wor"] (mkInit true true)).lastResponse = "helwor" ∧
    (processStream ["hel", "wor"] (mkInit true true)).streamingText = "" := by
  have h := c2_streaming_concat ["hel", "wor"] (mkInit true true) (by rfl) (by rfl)
      ⟨"hel", by decide, by decide⟩
  refine ⟨?_, ?_, h.2.2.2⟩
  · rw [h.2.1]; decide
  · rw [h.2.2.1]; decide

/-- C4: `startSession` performs exactly one HTTP request, with the fixed
greeting payload, as its very first side effect — hence before any
WebSocket is opened; on the failure path no socket is opened at all, and
on the success path the returned session identifier is captured and the
socket is opened on exactly that identifier. -/
theorem c4_session_start (http : HttpResult) (s : AppState) (h : s.trace = []) :
    httpChats (startSession http s).trace = [ChatBody.greeting] ∧
    (startSession http s).trace.head? = some (Action.httpChat ChatBody.greeting) ∧
    (∀ a ∈ (startSession HttpResult.fail s).trace, a.isWsOpen = false) ∧
    (∀ r, (startSession (HttpResult.ok r) s).sessionId = some r.session_id ∧
          Action.wsOpen (some r.session_id) ∈ (startSession (HttpResult.ok r) s).trace) := by
  refine ⟨?_, ?_, ?_, ?_⟩
  · cases http with
    | fail => simp [startSession, emit, h, httpChats]
    | ok r =>
      by_cases hse : s.socketExists = true <;> by_cases hsy : s.speechSynthSupported = true <;>
        simp [startSession, connectWebSocket, showMessage, speak, emit, h, hse, hsy, httpChats]
  · cases http with
    | fail => simp [startSession, emit, h]
    | ok r =>
      by_cases hse : s.socketExists = true <;> by_cases hsy : s.speechSynthSupported = true <;>
        simp [startSession, connectWebSocket, showMessage, speak, emit, h, hse, hsy]
  · intro a ha
    rw [startSession] at ha
    rw [emit_trace, emit_trace, h] at ha
    simp at ha
    rcases ha with ha | ha <;> rw [ha] <;> rfl
  · intro r
    constructor
    · by_cases hse : s.socketExists = true <;> by_cases hsy : s.speechSynthSupported = true <;>
        simp [startSession, connectWebSocket, showMessage, speak, emit, hse, hsy]
    · by_cases hse : s.socketExists = true <;> by_cases hsy : s.speechSynthSupported = true <;>
        simp [startSession, connectWebSocket, showMessage, speak, emit, h, hse, hsy]

theorem c4_session_start_witness :
    httpChats (startSession (HttpResult.ok ⟨"sid", "hi"⟩) (mkInit true true)).trace
      = [ChatBody.greeting] ∧
    (startSession (HttpResult.ok ⟨"sid", "hi"⟩) (mkInit true true)).sessionId = some "sid" ∧
    Action.wsOpen (some "sid")
      ∈ (startSession (HttpResult.ok ⟨"sid", "hi"⟩) (mkInit true true)).trace := by
  have h := c4_session_start (HttpResult.ok ⟨"sid", "hi"⟩) (mkInit true true) (by rfl)
  exact ⟨h.1, (h.2.2.2 ⟨"sid", "hi"⟩).1, (h.2.2.2 ⟨"sid", "hi"⟩).2⟩

/-- C7 counterexample: the session identifier is not immutable after
first assignment — a later HTTP chat send overwrites it with whatever
`session_id` the response carries. -/
theorem c7_session_id_counterexample :
    ({ mkInit true true with sessionId := some "a" } : AppState).sessionId = some "a" ∧
    (sendMessage "hi" (HttpResult.ok ⟨"b", "resp"⟩)
        { mkInit true true with sessionId := some "a" }).sessionId = some "b" ∧
    (some "b" : Option String) ≠ some "a" := by
  refine ⟨by decide, by decide, by decide⟩

/-- C7 (amended): every later HTTP chat payload carries the current
session identifier, and the WebSocket path uses it; the identifier is
reassigned only from the `session_id` of an HTTP chat response (so it
never changes as long as the service echoes the same identifier), and no
socket-path operation or frame changes it. -/
theorem c7_session_id_reuse (s : AppState) (text : String) (r : ChatResponse)
    (d : WsData) (http : HttpResult) (hh : HelpResult) :
    (s.socketOpen = false → jsTrim text ≠ "" →
      httpChats (sendMessage text (HttpResult.ok r) s).trace
        = httpChats s.trace ++ [ChatBody.chat text s.sessionId s.speakSlowly] ∧
      (sendMessage text (HttpResult.ok r) s).sessionId = some r.session_id) ∧
    (s.socketOpen = true → (sendMessage text http s).sessionId = s.sessionId) ∧
    (socketOnMessage d s).sessionId = s.sessionId ∧
    (connectWebSocket s).trace
      = s.trace ++ (if s.socketExists then [Action.wsClose] else [])
        ++ [Action.wsOpen s.sessionId] ∧
    Action.httpHumanHelp s.sessionId (jsTrim s.phoneInput)
      ∈ (requestHumanHelp hh s).trace ∧
    (requestHumanHelp hh s).sessionId = s.sessionId := by
  refine ⟨?_, ?_, by simp, connectWebSocket_trace s, ?_, ?_⟩
  · intro hso htext
    constructor
    · by_cases hsy : s.speechSynthSupported = true <;>
        simp [sendMessage, showMessage, speak, emit, htext, hso, hsy, httpChats]
    · by_cases hsy : s.speechSynthSupported = true <;>
        simp [sendMessage, showMessage, speak, emit, htext, hso, hsy]
  · intro hso
    by_cases htext : jsTrim text = "" <;>
      simp [sendMessage, showMessage, emit, htext, hso]
  · cases hh <;> by_cases hsy : s.speechSynthSupported = true <;>
      simp [requestHumanHelp, hideHumanHelpModal, showMessage, speak, emit, hsy]
  · cases hh <;> by_cases hsy : s.speechSynthSupported = true <;>
      simp [requestHumanHelp, hideHumanHelpModal, showMessage, speak, emit, hsy]

theorem c7_session_id_reuse_witness :
    httpChats (sendMessage "hi" (HttpResult.ok ⟨"a", "resp"⟩)
        { mkInit true true with sessionId := some "a" }).trace
      = [ChatBody.chat "hi" (some "a") false] ∧
    (sendMessage "hi" (HttpResult.ok ⟨"a", "resp"⟩)
        { mkInit true true with sessionId := some "a" }).sessionId = some "a" := by
  have h := (c7_session_id_reuse { mkInit true true with sessionId := some "a" }
      "hi" ⟨"a", "resp"⟩ doneFrame HttpResult.fail HelpResult.fail).1 (by rfl) (by decide)
  refine ⟨?_, h.2⟩
  rw [h.1]; decide

/-- C10: the last-response cache is left unchanged by `{chunk}` frames,
`{error}` frames, stats frames and failed HTTP sends; it is set by a
`{done}` frame that completes a stream, and the repeat-playback control
speaks exactly the cached value. -/
theorem c10_last_response_cache (s : AppState) (c e t : String) :
    (socketOnMessage (chunkFrame c) s).lastResponse = s.lastResponse ∧
    (socketOnMessage (errorFrame e) s).lastResponse = s.lastResponse ∧
    (socketOnMessage statsFrame s).lastResponse = s.lastResponse ∧
    (sendMessage t HttpResult.fail s).lastResponse = s.lastResponse ∧
    (s.streamingActive = true →
      (socketOnMessage doneFrame s).lastResponse = s.streamingText) ∧
    (s.lastResponse ≠ "" → s.speechSynthSupported = true →
      spokenTexts (readLastClick s).trace = spokenTexts s.trace ++ [s.lastResponse]) := by
  refine ⟨?_, ?_, ?_, ?_, ?_, ?_⟩
  · by_cases hc : c = ""
    · subst hc; rw [chunk_frame_empty]
    · by_cases ha : s.streamingActive = true
      · rw [chunk_frame_nonempty_active c s hc ha]
      · rw [chunk_frame_nonempty_inactive c s hc (by simpa using ha)]
  · by_cases he : e = "" <;> simp [socketOnMessage, errorFrame, he, showMessage, emit]
  · simp [socketOnMessage, statsFrame]
  · by_cases ht : jsTrim t = ""
    · simp [sendMessage, showMessage, emit, ht]
    · by_cases hso : s.socketOpen = true <;> simp [sendMessage, showMessage, emit, ht, hso]
  · intro ha
    rw [done_frame_active s ha]
  · intro h1 h2
    rw [readLastClick, if_pos h1, speak_trace_supported _ _ h2]
    rw [spokenTexts_append]
    simp [spokenTexts]

theorem c10_last_response_cache_witness :
    (socketOnMessage doneFrame { mkInit true true with
        streamingActive := true, streamingText := "ans" }).lastResponse = "ans" ∧
    spokenTexts (readLastClick { mkInit true true with
        lastResponse := "prev" }).trace = ["prev"] := by
  have h1 := (c10_last_response_cache { mkInit true true with
      streamingActive := true, streamingText := "ans" } "" "" "").2.2.2.2.1 (by rfl)
  have h2 := (c10_last_response_cache { mkInit true true with
      lastResponse := "prev" } "" "" "").2.2.2.2.2 (by decide) (by rfl)
  constructor
  · rw [h1]
  · rw [h2]; decide

end TechHelper
